import Mathlib

/-!
Shallow embedding of
`src/CentralServer/centralserver/routers/reports_routes/disbursement_voucher.py`
(BENTO central server, disbursement-voucher report endpoints).

The three HTTP endpoints — create-or-update (upsert), get-one, and
list-by-month — are modelled as pure state transformers over a `Store` value
holding the voucher header rows and the three child-row tables.  The external
collaborators (auth handler, DB session) are modelled as: an `AuthCtx`
capability record for token/permission resolution, and the `Store` itself for
the session, with `db.add` as list append, `db.delete` as row removal,
`db.commit`/`db.refresh` as the identity (the state is applied eagerly and no
failure path of `commit` is exercised by these claims).

Python `datetime.date` construction is embedded as `mkDate?`, which validates
(year, month, day) against the proleptic Gregorian calendar exactly as
CPython's `datetime.date` does (year 1..9999).  Python `float` payload fields
(quantity, unitPrice, debit, credit) are embedded as `Rat`: the endpoints only
carry these values through unchanged and never perform arithmetic on them, so
any value type with decidable equality is a faithful model of the pass-through.
-/

/-- Proleptic-Gregorian leap-year test, as used by CPython `datetime`. -/
def isLeapYear (y : Int) : Bool :=
  y % 4 == 0 && (y % 100 != 0 || y % 400 == 0)

/-- Number of days in a month, as used by CPython `datetime`. -/
def daysInMonth (y m : Int) : Int :=
  if m == 2 then (if isLeapYear y then 29 else 28)
  else if m == 4 || m == 6 || m == 9 || m == 11 then 30
  else 31

/-- Validity of (year, month, day) components for CPython `datetime.date`:
`MINYEAR = 1`, `MAXYEAR = 9999`, month in 1..12, day in 1..days-in-month. -/
def dateValid (y m d : Int) : Bool :=
  decide (1 ≤ y) && decide (y ≤ 9999) &&
  decide (1 ≤ m) && decide (m ≤ 12) &&
  decide (1 ≤ d) && decide (d ≤ daysInMonth y m)

/-- A calendar date value (only ever constructed through `mkDate?`). -/
structure Date where
  year : Int
  month : Int
  day : Int
deriving DecidableEq, Repr

/-- `datetime.date(y, m, d)`: `some` on valid components, `none` for the
`ValueError` raise. -/
def mkDate? (y m d : Int) : Option Date :=
  if dateValid y m d then some ⟨y, m, d⟩ else none

/-- `ReportStatus` enumeration. Modelled from the spec: the enum class lives in
`centralserver.internals.models.reports.report_status`, which is not in src/;
the spec names the lifecycle draft → certified → approved → paid. -/
inductive ReportStatus where
  | draft
  | certified
  | approved
  | paid
deriving DecidableEq, Repr

/-- Modelled from the spec: the store-assigned status a freshly constructed
`DisbursementVoucher` row carries (the ORM model class with its column default
is not in src/; the spec says the status is set by the store on creation and
the lifecycle starts at draft). -/
def defaultReportStatus : ReportStatus := .draft

/-- Row of the `DisbursementVoucher` header table.  Column set taken from the
fields the router reads and writes (model class itself not in src/). -/
structure VoucherRow where
  parent : Date
  date : Date
  schoolId : Int
  modeOfPayment : String
  payee : String
  tinOrEmployeeNo : Option String
  responsibilityCenter : Option String
  orsbursNo : Option String
  address : Option String
  linkedLiquidationCategory : Option String
  reportStatus : ReportStatus
  certifiedCashAvailable : Bool
  certifiedSupportingDocsComplete : Bool
  certifiedSubjectToDebitAccount : Bool
  approvedBy : Option String
  checkNo : Option String
  bankNameAndAccountNo : Option String
  adaNo : Option String
  jevNo : Option String
deriving DecidableEq, Repr

/-- Row of the `DisbursementVoucherEntry` child table.  In the source the
`date` column is `datetime.datetime.combine(voucher_date, datetime.time())`,
i.e. midnight of the voucher date; since the time part is always midnight it
is embedded as the `Date` itself. -/
structure EntryRow where
  parent : Date
  date : Date
  schoolId : Int
  receipt : Option String
  particulars : String
  unit : String
  quantity : Rat
  unitPrice : Rat
deriving DecidableEq, Repr

/-- Row of the `DisbursementVoucherAccountingEntry` child table (same midnight
`datetime` remark as `EntryRow`). -/
structure AccountingEntryRow where
  parent : Date
  date : Date
  schoolId : Int
  uacs_code : String
  accountTitle : String
  debit : Rat
  credit : Rat
deriving DecidableEq, Repr

/-- Row of the `DisbursementVoucherCertifiedBy` child table. -/
structure CertifiedByRow where
  parent : Date
  date : Date
  schoolId : Int
  user : String
deriving DecidableEq, Repr

/-- The persisted state visible to this router: the voucher header table and
the three child tables, each as a list in store order (inserts append). -/
structure Store where
  vouchers : List VoucherRow
  entries : List EntryRow
  accountingEntries : List AccountingEntryRow
  certifiedBy : List CertifiedByRow
deriving DecidableEq, Repr

/-- `DisbursementVoucherEntryData` request/response model. -/
structure DisbursementVoucherEntryData where
  receipt : Option String
  particulars : String
  unit : String
  quantity : Rat
  unitPrice : Rat
deriving DecidableEq, Repr

/-- `DisbursementVoucherAccountingEntryData` request/response model. -/
structure DisbursementVoucherAccountingEntryData where
  uacs_code : String
  accountTitle : String
  debit : Rat
  credit : Rat
deriving DecidableEq, Repr

/-- `DisbursementVoucherCreateRequest` body model.  Note: it has no
report-status field; `schoolId` and `date` are present in the wire model but
unused by the handler (the path parameters are used instead). -/
structure DisbursementVoucherCreateRequest where
  schoolId : Int
  date : Date
  modeOfPayment : String
  payee : String
  tinOrEmployeeNo : Option String
  responsibilityCenter : Option String
  orsbursNo : Option String
  address : Option String
  linkedLiquidationCategory : Option String
  certifiedCashAvailable : Bool
  certifiedSupportingDocsComplete : Bool
  certifiedSubjectToDebitAccount : Bool
  approvedBy : Option String
  checkNo : Option String
  bankNameAndAccountNo : Option String
  adaNo : Option String
  jevNo : Option String
  entries : List DisbursementVoucherEntryData
  accountingEntries : List DisbursementVoucherAccountingEntryData
  certifiedBy : List String
deriving DecidableEq, Repr

/-- `DisbursementVoucherResponse` model. -/
structure DisbursementVoucherResponse where
  parent : Date
  date : Date
  schoolId : Int
  modeOfPayment : String
  payee : String
  tinOrEmployeeNo : Option String
  responsibilityCenter : Option String
  orsbursNo : Option String
  address : Option String
  linkedLiquidationCategory : Option String
  reportStatus : ReportStatus
  certifiedCashAvailable : Bool
  certifiedSupportingDocsComplete : Bool
  certifiedSubjectToDebitAccount : Bool
  approvedBy : Option String
  checkNo : Option String
  bankNameAndAccountNo : Option String
  adaNo : Option String
  jevNo : Option String
  entries : List DisbursementVoucherEntryData
  accountingEntries : List DisbursementVoucherAccountingEntryData
  certifiedBy : List String
deriving DecidableEq, Repr

/-- Caller identity and capability view of the external auth handler:
`hasPerm sc` is the combined outcome of `verify_access_token`, `get_user` and
`verify_user_permission db user sc` — `true` when the token resolves to a user
holding scope `sc`, `false` when any of those checks raises. -/
structure AuthCtx where
  userId : Int
  hasPerm : String → Bool

/-- The error outcomes the endpoints can surface. -/
inductive ApiError where
  | authorizationError
  | validationError
  | notFound (detail : String)
deriving DecidableEq, Repr

/-- HTTP status classification of the errors.  The 404 with its detail string
is raised directly in src/ (`HTTPException(status.HTTP_404_NOT_FOUND, ...)`).
Modelled from the spec: the 401/403-class for authorization failures and the
422-class for calendar validation failures — the exception classes are raised
by collaborators or mapped by app-level handlers outside src/, and spec §7
fixes their classification. -/
def ApiError.statusCode : ApiError → Nat
  | .authorizationError => 403
  | .validationError => 422
  | .notFound _ => 404

/-- The `where` predicate of the upsert/get select statement: matches a
voucher header on (parent, date, schoolId). -/
def voucherKeyMatch (pd vd : Date) (sid : Int) (v : VoucherRow) : Bool :=
  decide (v.parent = pd) && decide (v.date = vd) && decide (v.schoolId = sid)

/-- Key predicate for entry child rows (parent, date, schoolId). -/
def entryKeyMatch (pd vd : Date) (sid : Int) (e : EntryRow) : Bool :=
  decide (e.parent = pd) && decide (e.date = vd) && decide (e.schoolId = sid)

/-- Key predicate for accounting-entry child rows. -/
def accountingKeyMatch (pd vd : Date) (sid : Int) (e : AccountingEntryRow) : Bool :=
  decide (e.parent = pd) && decide (e.date = vd) && decide (e.schoolId = sid)

/-- Key predicate for certified-by child rows. -/
def certifiedKeyMatch (pd vd : Date) (sid : Int) (c : CertifiedByRow) : Bool :=
  decide (c.parent = pd) && decide (c.date = vd) && decide (c.schoolId = sid)

/-- Modelled from the spec: the ORM relationship `voucher.entries` (the model
class is not in src/).  Per the spec, every child row is tagged with the same
(parent, date, schoolId) key as its header, so the relationship yields exactly
the entry rows whose key columns match the voucher's, in store order. -/
def Store.entriesOf (s : Store) (v : VoucherRow) : List EntryRow :=
  s.entries.filter (entryKeyMatch v.parent v.date v.schoolId)

/-- Modelled from the spec: the ORM relationship `voucher.accounting_entries`
(see `Store.entriesOf`). -/
def Store.accountingEntriesOf (s : Store) (v : VoucherRow) : List AccountingEntryRow :=
  s.accountingEntries.filter (accountingKeyMatch v.parent v.date v.schoolId)

/-- Modelled from the spec: the ORM relationship `voucher.certified_by`
(see `Store.entriesOf`). -/
def Store.certifiedByOf (s : Store) (v : VoucherRow) : List CertifiedByRow :=
  s.certifiedBy.filter (certifiedKeyMatch v.parent v.date v.schoolId)

/-- The response construction common to all three endpoints: mirror every
header column, the stored report status, and the child collections in store
order. -/
def buildResponse (s : Store) (v : VoucherRow) : DisbursementVoucherResponse :=
  { parent := v.parent
    date := v.date
    schoolId := v.schoolId
    modeOfPayment := v.modeOfPayment
    payee := v.payee
    tinOrEmployeeNo := v.tinOrEmployeeNo
    responsibilityCenter := v.responsibilityCenter
    orsbursNo := v.orsbursNo
    address := v.address
    linkedLiquidationCategory := v.linkedLiquidationCategory
    reportStatus := v.reportStatus
    certifiedCashAvailable := v.certifiedCashAvailable
    certifiedSupportingDocsComplete := v.certifiedSupportingDocsComplete
    certifiedSubjectToDebitAccount := v.certifiedSubjectToDebitAccount
    approvedBy := v.approvedBy
    checkNo := v.checkNo
    bankNameAndAccountNo := v.bankNameAndAccountNo
    adaNo := v.adaNo
    jevNo := v.jevNo
    entries := (s.entriesOf v).map fun e =>
      { receipt := e.receipt, particulars := e.particulars, unit := e.unit,
        quantity := e.quantity, unitPrice := e.unitPrice }
    accountingEntries := (s.accountingEntriesOf v).map fun e =>
      { uacs_code := e.uacs_code, accountTitle := e.accountTitle,
        debit := e.debit, credit := e.credit }
    certifiedBy := (s.certifiedByOf v).map fun c => c.user }

/-- Overwrite every mutable header field of a voucher row from the request,
exactly the assignment block `voucher.modeOfPayment = request.modeOfPayment`
… `voucher.jevNo = request.jevNo` in the source.  The key columns and
`reportStatus` are not assigned there and stay unchanged. -/
def applyHeader (request : DisbursementVoucherCreateRequest) (v : VoucherRow) : VoucherRow :=
  { v with
    modeOfPayment := request.modeOfPayment
    payee := request.payee
    tinOrEmployeeNo := request.tinOrEmployeeNo
    responsibilityCenter := request.responsibilityCenter
    orsbursNo := request.orsbursNo
    address := request.address
    linkedLiquidationCategory := request.linkedLiquidationCategory
    certifiedCashAvailable := request.certifiedCashAvailable
    certifiedSupportingDocsComplete := request.certifiedSupportingDocsComplete
    certifiedSubjectToDebitAccount := request.certifiedSubjectToDebitAccount
    approvedBy := request.approvedBy
    checkNo := request.checkNo
    bankNameAndAccountNo := request.bankNameAndAccountNo
    adaNo := request.adaNo
    jevNo := request.jevNo }

/-- `DisbursementVoucher(parent=…, date=…, schoolId=…)`: a fresh header row
with the key columns set.  Modelled from the spec for the remaining columns
(the ORM model class with its defaults is not in src/): `reportStatus` takes
the store-assigned default, and every mutable header column takes the ORM
column default — all of them are overwritten by `applyHeader` before commit,
so their initial values are never observable. -/
def newVoucherRow (pd vd : Date) (sid : Int) : VoucherRow :=
  { parent := pd
    date := vd
    schoolId := sid
    modeOfPayment := ""
    payee := ""
    tinOrEmployeeNo := none
    responsibilityCenter := none
    orsbursNo := none
    address := none
    linkedLiquidationCategory := none
    reportStatus := defaultReportStatus
    certifiedCashAvailable := false
    certifiedSupportingDocsComplete := false
    certifiedSubjectToDebitAccount := false
    approvedBy := none
    checkNo := none
    bankNameAndAccountNo := none
    adaNo := none
    jevNo := none }

/-- Entry child row inserted for one submitted line entry (source tags it with
parent, midnight-of-voucher-date, schoolId). -/
def entryRowOfData (pd vd : Date) (sid : Int) (e : DisbursementVoucherEntryData) : EntryRow :=
  { parent := pd, date := vd, schoolId := sid, receipt := e.receipt,
    particulars := e.particulars, unit := e.unit, quantity := e.quantity,
    unitPrice := e.unitPrice }

/-- Accounting-entry child row inserted for one submitted accounting line. -/
def accountingRowOfData (pd vd : Date) (sid : Int)
    (e : DisbursementVoucherAccountingEntryData) : AccountingEntryRow :=
  { parent := pd, date := vd, schoolId := sid, uacs_code := e.uacs_code,
    accountTitle := e.accountTitle, debit := e.debit, credit := e.credit }

/-- Certified-by child row inserted for one submitted certifying user id. -/
def certifiedRowOfUser (pd vd : Date) (sid : Int) (u : String) : CertifiedByRow :=
  { parent := pd, date := vd, schoolId := sid, user := u }

/-- Replace the first element satisfying `p` by its image under `f`, leaving
the rest unchanged: the in-place ORM update of the row `db.exec(stmt).first()`
returned. -/
def updateFirst (p : α → Bool) (f : α → α) : List α → List α
  | [] => []
  | x :: xs => if p x then f x :: xs else x :: updateFirst p f xs

/-- Store after the update path of the upsert: delete every child row the ORM
relationships of the existing voucher yield (which, per `Store.entriesOf`, are
exactly the key-matching rows), overwrite the header fields of the found row
in place, and append the freshly inserted child rows. -/
def upsertExistingStore (pd vd : Date) (sid : Int)
    (request : DisbursementVoucherCreateRequest) (s : Store) : Store :=
  { vouchers := updateFirst (voucherKeyMatch pd vd sid) (applyHeader request) s.vouchers
    entries := s.entries.filter (fun e => !(entryKeyMatch pd vd sid e))
      ++ request.entries.map (entryRowOfData pd vd sid)
    accountingEntries := s.accountingEntries.filter (fun e => !(accountingKeyMatch pd vd sid e))
      ++ request.accountingEntries.map (accountingRowOfData pd vd sid)
    certifiedBy := s.certifiedBy.filter (fun c => !(certifiedKeyMatch pd vd sid c))
      ++ request.certifiedBy.map (certifiedRowOfUser pd vd sid) }

/-- Store after the create path of the upsert: append a fresh header row with
its fields overwritten from the request, and append the child rows; nothing is
deleted on this path. -/
def upsertNewStore (pd vd : Date) (sid : Int)
    (request : DisbursementVoucherCreateRequest) (s : Store) : Store :=
  { vouchers := s.vouchers ++ [applyHeader request (newVoucherRow pd vd sid)]
    entries := s.entries ++ request.entries.map (entryRowOfData pd vd sid)
    accountingEntries := s.accountingEntries
      ++ request.accountingEntries.map (accountingRowOfData pd vd sid)
    certifiedBy := s.certifiedBy ++ request.certifiedBy.map (certifiedRowOfUser pd vd sid) }

/-- `POST /{school_id}/{year}/{month}/{date}` —
`create_or_update_disbursement_voucher`.  Returns the endpoint outcome and
the store after the request (unchanged on every error path, since the source
raises before any session mutation). -/
def create_or_update_disbursement_voucher (auth : AuthCtx)
    (school_id year month date : Int)
    (request : DisbursementVoucherCreateRequest) (s : Store) :
    Except ApiError DisbursementVoucherResponse × Store :=
  if auth.hasPerm "reports:local:write" then
    match mkDate? year month 1 with
    | none => (.error .validationError, s)
    | some parent_date =>
      match mkDate? year month date with
      | none => (.error .validationError, s)
      | some voucher_date =>
        match s.vouchers.find? (voucherKeyMatch parent_date voucher_date school_id) with
        | some existing_voucher =>
          let s' := upsertExistingStore parent_date voucher_date school_id request s
          (.ok (buildResponse s' (applyHeader request existing_voucher)), s')
        | none =>
          let s' := upsertNewStore parent_date voucher_date school_id request s
          (.ok (buildResponse s'
            (applyHeader request (newVoucherRow parent_date voucher_date school_id))), s')
  else (.error .authorizationError, s)

/-- `GET /{school_id}/{year}/{month}/{date}` — `get_disbursement_voucher`. -/
def get_disbursement_voucher (auth : AuthCtx) (school_id year month date : Int)
    (s : Store) : Except ApiError DisbursementVoucherResponse × Store :=
  if auth.hasPerm "reports:local:read" then
    match mkDate? year month 1 with
    | none => (.error .validationError, s)
    | some parent_date =>
      match mkDate? year month date with
      | none => (.error .validationError, s)
      | some voucher_date =>
        match s.vouchers.find? (voucherKeyMatch parent_date voucher_date school_id) with
        | none => (.error (.notFound "Disbursement voucher not found."), s)
        | some voucher => (.ok (buildResponse s voucher), s)
  else (.error .authorizationError, s)

/-- Python truthiness of the optional `linked_category` query parameter:
`if linked_category:` is `False` for both `None` and the empty string. -/
def linkedCategoryTruthy : Option String → Bool
  | none => false
  | some c => decide (c ≠ "")

/-- `GET /{school_id}/{year}/{month}` — `get_disbursement_vouchers_for_month`. -/
def get_disbursement_vouchers_for_month (auth : AuthCtx)
    (school_id year month : Int) (linked_category : Option String) (s : Store) :
    Except ApiError (List DisbursementVoucherResponse) × Store :=
  if auth.hasPerm "reports:local:read" then
    match mkDate? year month 1 with
    | none => (.error .validationError, s)
    | some parent_date =>
      let base := s.vouchers.filter fun v =>
        decide (v.parent = parent_date) && decide (v.schoolId = school_id)
      let selected :=
        if linkedCategoryTruthy linked_category then
          base.filter fun v =>
            decide (v.linkedLiquidationCategory = linked_category)
        else base
      (.ok (selected.map (buildResponse s)), s)
  else (.error .authorizationError, s)

/-! ## Helper lemmas -/

theorem voucherKeyMatch_iff (pd vd : Date) (sid : Int) (v : VoucherRow) :
    voucherKeyMatch pd vd sid v = true ↔
      v.parent = pd ∧ v.date = vd ∧ v.schoolId = sid := by
  simp [voucherKeyMatch, and_assoc]

theorem entryKeyMatch_iff (pd vd : Date) (sid : Int) (e : EntryRow) :
    entryKeyMatch pd vd sid e = true ↔
      e.parent = pd ∧ e.date = vd ∧ e.schoolId = sid := by
  simp [entryKeyMatch, and_assoc]

theorem accountingKeyMatch_iff (pd vd : Date) (sid : Int) (e : AccountingEntryRow) :
    accountingKeyMatch pd vd sid e = true ↔
      e.parent = pd ∧ e.date = vd ∧ e.schoolId = sid := by
  simp [accountingKeyMatch, and_assoc]

theorem certifiedKeyMatch_iff (pd vd : Date) (sid : Int) (c : CertifiedByRow) :
    certifiedKeyMatch pd vd sid c = true ↔
      c.parent = pd ∧ c.date = vd ∧ c.schoolId = sid := by
  simp [certifiedKeyMatch, and_assoc]

theorem voucherKeyMatch_applyHeader (pd vd : Date) (sid : Int)
    (r : DisbursementVoucherCreateRequest) (v : VoucherRow) :
    voucherKeyMatch pd vd sid (applyHeader r v) = voucherKeyMatch pd vd sid v := rfl

theorem applyHeader_reportStatus (r : DisbursementVoucherCreateRequest) (v : VoucherRow) :
    (applyHeader r v).reportStatus = v.reportStatus := rfl

theorem voucherKeyMatch_new (pd vd : Date) (sid : Int)
    (r : DisbursementVoucherCreateRequest) :
    voucherKeyMatch pd vd sid (applyHeader r (newVoucherRow pd vd sid)) = true := by
  simp [voucherKeyMatch, applyHeader, newVoucherRow]

theorem mkDate?_eq_some (y m d : Int) (h : dateValid y m d = true) :
    mkDate? y m d = some ⟨y, m, d⟩ := by
  simp [mkDate?, h]

theorem mkDate?_eq_none (y m d : Int) (h : dateValid y m d = false) :
    mkDate? y m d = none := by
  simp [mkDate?, h]

theorem dateValid_first (y m d : Int) (h : dateValid y m d = true) :
    dateValid y m 1 = true := by
  simp only [dateValid, Bool.and_eq_true, decide_eq_true_eq] at h ⊢
  omega

theorem find?_append_left_none (p : α → Bool) (l₁ l₂ : List α)
    (h : l₁.find? p = none) : (l₁ ++ l₂).find? p = l₂.find? p := by
  rw [List.find?_eq_none] at h
  induction l₁ with
  | nil => rfl
  | cons x xs ih =>
    rw [List.cons_append, List.find?_cons_of_neg _ (h x (List.mem_cons_self x xs))]
    exact ih fun a ha => h a (List.mem_cons_of_mem x ha)

theorem find?_updateFirst (p : α → Bool) (f : α → α)
    (hf : ∀ x, p x = true → p (f x) = true) (l : List α) :
    (updateFirst p f l).find? p = (l.find? p).map f := by
  induction l with
  | nil => rfl
  | cons x xs ih =>
    by_cases hx : p x = true
    · rw [updateFirst, if_pos hx, List.find?_cons_of_pos _ (hf x hx),
        List.find?_cons_of_pos _ hx]
      rfl
    · rw [updateFirst, if_neg (by simp [hx]), List.find?_cons_of_neg _ hx,
        List.find?_cons_of_neg _ hx]
      exact ih

theorem length_updateFirst (p : α → Bool) (f : α → α) (l : List α) :
    (updateFirst p f l).length = l.length := by
  induction l with
  | nil => rfl
  | cons x xs ih =>
    rw [updateFirst]
    split <;> simp [ih]

theorem filter_not_filter (p : α → Bool) (l : List α) :
    (l.filter fun a => !(p a)).filter p = [] := by
  rw [List.filter_eq_nil_iff]
  intro a ha
  simp only [List.mem_filter, Bool.not_eq_true'] at ha
  simp [ha.2]

/-! ## Branch characterizations of the endpoints -/

theorem create_or_update_eq_update (auth : AuthCtx) (sid y m d : Int)
    (req : DisbursementVoucherCreateRequest) (s : Store) (v : VoucherRow)
    (hp : auth.hasPerm "reports:local:write" = true)
    (hd : dateValid y m d = true)
    (hfind : s.vouchers.find? (voucherKeyMatch ⟨y, m, 1⟩ ⟨y, m, d⟩ sid) = some v) :
    create_or_update_disbursement_voucher auth sid y m d req s =
      (.ok (buildResponse (upsertExistingStore ⟨y, m, 1⟩ ⟨y, m, d⟩ sid req s)
        (applyHeader req v)),
       upsertExistingStore ⟨y, m, 1⟩ ⟨y, m, d⟩ sid req s) := by
  simp only [create_or_update_disbursement_voucher, hp,
    mkDate?_eq_some y m 1 (dateValid_first y m d hd), mkDate?_eq_some y m d hd,
    hfind, if_true]

theorem create_or_update_eq_create (auth : AuthCtx) (sid y m d : Int)
    (req : DisbursementVoucherCreateRequest) (s : Store)
    (hp : auth.hasPerm "reports:local:write" = true)
    (hd : dateValid y m d = true)
    (hfind : s.vouchers.find? (voucherKeyMatch ⟨y, m, 1⟩ ⟨y, m, d⟩ sid) = none) :
    create_or_update_disbursement_voucher auth sid y m d req s =
      (.ok (buildResponse (upsertNewStore ⟨y, m, 1⟩ ⟨y, m, d⟩ sid req s)
        (applyHeader req (newVoucherRow ⟨y, m, 1⟩ ⟨y, m, d⟩ sid))),
       upsertNewStore ⟨y, m, 1⟩ ⟨y, m, d⟩ sid req s) := by
  simp only [create_or_update_disbursement_voucher, hp,
    mkDate?_eq_some y m 1 (dateValid_first y m d hd), mkDate?_eq_some y m d hd,
    hfind, if_true]

theorem get_eq_found (auth : AuthCtx) (sid y m d : Int) (s : Store) (v : VoucherRow)
    (hp : auth.hasPerm "reports:local:read" = true)
    (hd : dateValid y m d = true)
    (hfind : s.vouchers.find? (voucherKeyMatch ⟨y, m, 1⟩ ⟨y, m, d⟩ sid) = some v) :
    get_disbursement_voucher auth sid y m d s = (.ok (buildResponse s v), s) := by
  simp only [get_disbursement_voucher, hp,
    mkDate?_eq_some y m 1 (dateValid_first y m d hd), mkDate?_eq_some y m d hd,
    hfind, if_true]

theorem get_eq_notFound (auth : AuthCtx) (sid y m d : Int) (s : Store)
    (hp : auth.hasPerm "reports:local:read" = true)
    (hd : dateValid y m d = true)
    (hfind : s.vouchers.find? (voucherKeyMatch ⟨y, m, 1⟩ ⟨y, m, d⟩ sid) = none) :
    get_disbursement_voucher auth sid y m d s =
      (.error (.notFound "Disbursement voucher not found."), s) := by
  simp only [get_disbursement_voucher, hp,
    mkDate?_eq_some y m 1 (dateValid_first y m d hd), mkDate?_eq_some y m d hd,
    hfind, if_true]

/-- The header-field part of a response mirrors the submitted payload: the
fields C1 enumerates (payment mode, payee, optional fields, certification
booleans, approver, check/bank/ADA/JEV references). -/
def headerMatches (r : DisbursementVoucherResponse)
    (req : DisbursementVoucherCreateRequest) : Prop :=
  r.modeOfPayment = req.modeOfPayment ∧ r.payee = req.payee ∧
  r.tinOrEmployeeNo = req.tinOrEmployeeNo ∧
  r.responsibilityCenter = req.responsibilityCenter ∧
  r.orsbursNo = req.orsbursNo ∧ r.address = req.address ∧
  r.linkedLiquidationCategory = req.linkedLiquidationCategory ∧
  r.certifiedCashAvailable = req.certifiedCashAvailable ∧
  r.certifiedSupportingDocsComplete = req.certifiedSupportingDocsComplete ∧
  r.certifiedSubjectToDebitAccount = req.certifiedSubjectToDebitAccount ∧
  r.approvedBy = req.approvedBy ∧ r.checkNo = req.checkNo ∧
  r.bankNameAndAccountNo = req.bankNameAndAccountNo ∧
  r.adaNo = req.adaNo ∧ r.jevNo = req.jevNo

instance (r : DisbursementVoucherResponse) (req : DisbursementVoucherCreateRequest) :
    Decidable (headerMatches r req) := by
  unfold headerMatches
  infer_instance

theorem headerMatches_build (s : Store) (req : DisbursementVoucherCreateRequest)
    (v : VoucherRow) : headerMatches (buildResponse s (applyHeader req v)) req := by
  simp [headerMatches, buildResponse, applyHeader]

theorem find?_after_upsertExisting (pd vd : Date) (sid : Int)
    (req : DisbursementVoucherCreateRequest) (s : Store) (v : VoucherRow)
    (hfind : s.vouchers.find? (voucherKeyMatch pd vd sid) = some v) :
    (upsertExistingStore pd vd sid req s).vouchers.find? (voucherKeyMatch pd vd sid) =
      some (applyHeader req v) := by
  show (updateFirst _ _ s.vouchers).find? _ = _
  rw [find?_updateFirst _ _ (fun x hx => by rwa [voucherKeyMatch_applyHeader]), hfind]
  rfl

theorem find?_after_upsertNew (pd vd : Date) (sid : Int)
    (req : DisbursementVoucherCreateRequest) (s : Store)
    (hfind : s.vouchers.find? (voucherKeyMatch pd vd sid) = none) :
    (upsertNewStore pd vd sid req s).vouchers.find? (voucherKeyMatch pd vd sid) =
      some (applyHeader req (newVoucherRow pd vd sid)) := by
  show (s.vouchers ++ [_]).find? _ = _
  rw [find?_append_left_none _ _ _ hfind,
    List.find?_cons_of_pos _ (voucherKeyMatch_new pd vd sid req)]

/-! ## Claim theorems -/

/-- C1: for every valid (schoolId, year, month, day) and every voucher
payload, upserting once and then getting the same key succeeds and returns a
response whose header fields (payment mode, payee, optional fields,
certification booleans, approver, check/bank/ADA/JEV references) equal the
submitted payload's fields, plus the report status the store holds for the
persisted voucher row. -/
theorem upsert_then_get_returns_submitted_header (auth : AuthCtx)
    (sid y m d : Int) (req : DisbursementVoucherCreateRequest) (s : Store)
    (hw : auth.hasPerm "reports:local:write" = true)
    (hr : auth.hasPerm "reports:local:read" = true)
    (hd : dateValid y m d = true) :
    ∃ resp s' r,
      create_or_update_disbursement_voucher auth sid y m d req s = (.ok resp, s') ∧
      get_disbursement_voucher auth sid y m d s' = (.ok r, s') ∧
      headerMatches r req ∧
      ∃ v, s'.vouchers.find? (voucherKeyMatch ⟨y, m, 1⟩ ⟨y, m, d⟩ sid) = some v ∧
        r.reportStatus = v.reportStatus := by
  cases hfind : s.vouchers.find? (voucherKeyMatch ⟨y, m, 1⟩ ⟨y, m, d⟩ sid) with
  | some v =>
    have hup := create_or_update_eq_update auth sid y m d req s v hw hd hfind
    have hfind' := find?_after_upsertExisting ⟨y, m, 1⟩ ⟨y, m, d⟩ sid req s v hfind
    have hget := get_eq_found auth sid y m d _ _ hr hd hfind'
    exact ⟨_, _, _, hup, hget, headerMatches_build _ req _, _, hfind', rfl⟩
  | none =>
    have hup := create_or_update_eq_create auth sid y m d req s hw hd hfind
    have hfind' := find?_after_upsertNew ⟨y, m, 1⟩ ⟨y, m, d⟩ sid req s hfind
    have hget := get_eq_found auth sid y m d _ _ hr hd hfind'
    exact ⟨_, _, _, hup, hget, headerMatches_build _ req _, _, hfind', rfl⟩

/-! ## Concrete inputs for witnesses and counterexamples -/

/-- A caller holding every permission scope. -/
def authAll : AuthCtx := ⟨1, fun _ => true⟩

/-- A caller holding no permission scope. -/
def authNone : AuthCtx := ⟨2, fun _ => false⟩

/-- The empty store. -/
def emptyStore : Store := ⟨[], [], [], []⟩

/-- The line entry of the spec §8 example: Paper, box, quantity 2, unit price
50. -/
def exampleEntry : DisbursementVoucherEntryData :=
  { receipt := none, particulars := "Paper", unit := "box",
    quantity := 2, unitPrice := 50 }

/-- The spec §8 example payload: school 5, 2024-03-15, payee "Jane Doe", one
line entry. -/
def exampleRequest : DisbursementVoucherCreateRequest :=
  { schoolId := 5, date := ⟨2024, 3, 15⟩, modeOfPayment := "check",
    payee := "Jane Doe", tinOrEmployeeNo := none, responsibilityCenter := none,
    orsbursNo := none, address := none, linkedLiquidationCategory := none,
    certifiedCashAvailable := true, certifiedSupportingDocsComplete := false,
    certifiedSubjectToDebitAccount := false, approvedBy := none,
    checkNo := none, bankNameAndAccountNo := none, adaNo := none, jevNo := none,
    entries := [exampleEntry], accountingEntries := [], certifiedBy := ["user-1"] }

/-- A second payload for the same key with different child collections. -/
def exampleRequestB : DisbursementVoucherCreateRequest :=
  { schoolId := 5, date := ⟨2024, 3, 15⟩, modeOfPayment := "cash",
    payee := "John Roe", tinOrEmployeeNo := some "123",
    responsibilityCenter := none, orsbursNo := none, address := none,
    linkedLiquidationCategory := some "cat-b",
    certifiedCashAvailable := false, certifiedSupportingDocsComplete := true,
    certifiedSubjectToDebitAccount := false, approvedBy := some "approver",
    checkNo := none, bankNameAndAccountNo := none, adaNo := none, jevNo := none,
    entries := [], accountingEntries :=
      [{ uacs_code := "501", accountTitle := "Supplies", debit := 100, credit := 0 }],
    certifiedBy := ["user-2", "user-3"] }

/-! ## Claim theorems, continued -/

/-- C3: with read permission and a valid calendar date, getting a key whose
triple (parent = first of month, exact date, schoolId) matches no persisted
voucher fails with the 404 not-found error carrying the descriptive message,
and getting a key with a matching voucher succeeds with that voucher's
persisted data. -/
theorem get_notFound_or_found (auth : AuthCtx) (sid y m d : Int) (s : Store)
    (hr : auth.hasPerm "reports:local:read" = true)
    (hd : dateValid y m d = true) :
    (s.vouchers.find? (voucherKeyMatch ⟨y, m, 1⟩ ⟨y, m, d⟩ sid) = none →
      get_disbursement_voucher auth sid y m d s =
        (.error (.notFound "Disbursement voucher not found."), s) ∧
      (ApiError.notFound "Disbursement voucher not found.").statusCode = 404) ∧
    (∀ v, s.vouchers.find? (voucherKeyMatch ⟨y, m, 1⟩ ⟨y, m, d⟩ sid) = some v →
      get_disbursement_voucher auth sid y m d s = (.ok (buildResponse s v), s)) :=
  ⟨fun hn => ⟨get_eq_notFound auth sid y m d s hr hd hn, rfl⟩,
   fun v hv => get_eq_found auth sid y m d s v hr hd hv⟩

/-- Witness for C3: on the empty store the get endpoint returns the 404
not-found error. -/
theorem get_notFound_or_found_witness :
    get_disbursement_voucher authAll 5 2024 3 15 emptyStore =
      (.error (.notFound "Disbursement voucher not found."), emptyStore) :=
  ((get_notFound_or_found authAll 5 2024 3 15 emptyStore rfl (by decide)).1 rfl).1

/-- C5: for a day component out of range for the month, the upsert and get
endpoints (called with the required permission) fail with the validation
error, classified 422, raised at date construction — and the store comes back
unchanged, so nothing is persisted. -/
theorem invalid_date_fails_validation (auth : AuthCtx) (sid y m d : Int)
    (req : DisbursementVoucherCreateRequest) (s : Store)
    (hd : dateValid y m d = false) :
    (auth.hasPerm "reports:local:write" = true →
      create_or_update_disbursement_voucher auth sid y m d req s =
        (.error .validationError, s)) ∧
    (auth.hasPerm "reports:local:read" = true →
      get_disbursement_voucher auth sid y m d s = (.error .validationError, s)) ∧
    ApiError.validationError.statusCode = 422 := by
  refine ⟨fun hw => ?_, fun hr => ?_, rfl⟩
  · cases h1 : dateValid y m 1 with
    | false =>
      simp only [create_or_update_disbursement_voucher, hw,
        mkDate?_eq_none y m 1 h1, if_true]
    | true =>
      simp only [create_or_update_disbursement_voucher, hw,
        mkDate?_eq_some y m 1 h1, mkDate?_eq_none y m d hd, if_true]
  · cases h1 : dateValid y m 1 with
    | false =>
      simp only [get_disbursement_voucher, hr, mkDate?_eq_none y m 1 h1, if_true]
    | true =>
      simp only [get_disbursement_voucher, hr, mkDate?_eq_some y m 1 h1,
        mkDate?_eq_none y m d hd, if_true]

/-- Witness for C5 at month = 2, day = 30 of 2024. -/
theorem invalid_date_fails_validation_witness :
    dateValid 2024 2 30 = false ∧
    create_or_update_disbursement_voucher authAll 5 2024 2 30 exampleRequest
      emptyStore = (.error .validationError, emptyStore) ∧
    get_disbursement_voucher authAll 5 2024 2 30 emptyStore =
      (.error .validationError, emptyStore) :=
  ⟨by decide,
   (invalid_date_fails_validation authAll 5 2024 2 30 exampleRequest emptyStore
     (by decide)).1 rfl,
   (invalid_date_fails_validation authAll 5 2024 2 30 exampleRequest emptyStore
     (by decide)).2.1 rfl⟩

/-- C7: the get and the list endpoints return the store unchanged for every
input and every store state — neither performs any insert, delete, update or
commit, on the success paths as well as on the error paths. -/
theorem get_and_list_never_mutate (auth : AuthCtx) (sid y m d : Int)
    (lc : Option String) (s : Store) :
    (get_disbursement_voucher auth sid y m d s).2 = s ∧
    (get_disbursement_vouchers_for_month auth sid y m lc s).2 = s := by
  constructor
  · rw [get_disbursement_voucher]
    repeat' split
    all_goals rfl
  · rw [get_disbursement_vouchers_for_month]
    repeat' split
    all_goals rfl

/-- C8: when the caller lacks the required permission scope — write for the
upsert, read for get and list — the endpoint fails with the authorization
error and the store comes back unchanged: no voucher row is read, written or
deleted. -/
theorem missing_permission_fails_before_store (auth : AuthCtx) (sid y m d : Int)
    (req : DisbursementVoucherCreateRequest) (lc : Option String) (s : Store) :
    (auth.hasPerm "reports:local:write" = false →
      create_or_update_disbursement_voucher auth sid y m d req s =
        (.error .authorizationError, s)) ∧
    (auth.hasPerm "reports:local:read" = false →
      get_disbursement_voucher auth sid y m d s =
        (.error .authorizationError, s) ∧
      get_disbursement_vouchers_for_month auth sid y m lc s =
        (.error .authorizationError, s)) := by
  refine ⟨fun hw => ?_, fun hr => ⟨?_, ?_⟩⟩
  · simp [create_or_update_disbursement_voucher, hw]
  · simp [get_disbursement_voucher, hr]
  · simp [get_disbursement_vouchers_for_month, hr]

/-- Witness for C8 with a caller holding no scope. -/
theorem missing_permission_fails_before_store_witness :
    create_or_update_disbursement_voucher authNone 5 2024 3 15 exampleRequest
      emptyStore = (.error .authorizationError, emptyStore) ∧
    get_disbursement_voucher authNone 5 2024 3 15 emptyStore =
      (.error .authorizationError, emptyStore) ∧
    get_disbursement_vouchers_for_month authNone 5 2024 3 none emptyStore =
      (.error .authorizationError, emptyStore) :=
  ⟨(missing_permission_fails_before_store authNone 5 2024 3 15 exampleRequest
      none emptyStore).1 rfl,
   ((missing_permission_fails_before_store authNone 5 2024 3 15 exampleRequest
      none emptyStore).2 rfl).1,
   ((missing_permission_fails_before_store authNone 5 2024 3 15 exampleRequest
      none emptyStore).2 rfl).2⟩

/-- C10: listing with `linked_category` equal to the empty string behaves
exactly like listing with no `linked_category` at all — Python truthiness
makes `if linked_category:` skip the category filter for the empty string, so
vouchers with any (or no) linked liquidation category are returned. -/
theorem list_empty_category_eq_no_category (auth : AuthCtx) (sid y m : Int)
    (s : Store) :
    get_disbursement_vouchers_for_month auth sid y m (some "") s =
      get_disbursement_vouchers_for_month auth sid y m none s := by
  rw [get_disbursement_vouchers_for_month, get_disbursement_vouchers_for_month]
  simp [linkedCategoryTruthy]

theorem filter_replaceAll (p : α → Bool) (old new : List α)
    (hnew : ∀ a ∈ new, p a = true) :
    ((old.filter fun a => !(p a)) ++ new).filter p = new := by
  rw [List.filter_append, filter_not_filter, List.nil_append,
    List.filter_eq_self.mpr hnew]

theorem mem_of_mem_replaceAll (p : α → Bool) (old new : List α) (x : α)
    (hx : x ∈ (old.filter fun a => !(p a)) ++ new) : x ∈ old ∨ x ∈ new := by
  rcases List.mem_append.mp hx with h | h
  · exact .inl (List.mem_filter.mp h).1
  · exact .inr h

theorem entryRows_key (pd vd : Date) (sid : Int)
    (l : List DisbursementVoucherEntryData) :
    ∀ e ∈ l.map (entryRowOfData pd vd sid), entryKeyMatch pd vd sid e = true := by
  intro e he
  obtain ⟨a, _, rfl⟩ := List.mem_map.mp he
  simp [entryKeyMatch, entryRowOfData]

theorem accountingRows_key (pd vd : Date) (sid : Int)
    (l : List DisbursementVoucherAccountingEntryData) :
    ∀ e ∈ l.map (accountingRowOfData pd vd sid),
      accountingKeyMatch pd vd sid e = true := by
  intro e he
  obtain ⟨a, _, rfl⟩ := List.mem_map.mp he
  simp [accountingKeyMatch, accountingRowOfData]

theorem certifiedRows_key (pd vd : Date) (sid : Int) (l : List String) :
    ∀ c ∈ l.map (certifiedRowOfUser pd vd sid),
      certifiedKeyMatch pd vd sid c = true := by
  intro c hc
  obtain ⟨a, _, rfl⟩ := List.mem_map.mp hc
  simp [certifiedKeyMatch, certifiedRowOfUser]

theorem upsertExisting_children_exact (pd vd : Date) (sid : Int)
    (req : DisbursementVoucherCreateRequest) (s : Store) :
    (upsertExistingStore pd vd sid req s).entries.filter (entryKeyMatch pd vd sid) =
      req.entries.map (entryRowOfData pd vd sid) ∧
    (upsertExistingStore pd vd sid req s).accountingEntries.filter
        (accountingKeyMatch pd vd sid) =
      req.accountingEntries.map (accountingRowOfData pd vd sid) ∧
    (upsertExistingStore pd vd sid req s).certifiedBy.filter
        (certifiedKeyMatch pd vd sid) =
      req.certifiedBy.map (certifiedRowOfUser pd vd sid) :=
  ⟨filter_replaceAll _ _ _ (entryRows_key pd vd sid req.entries),
   filter_replaceAll _ _ _ (accountingRows_key pd vd sid req.accountingEntries),
   filter_replaceAll _ _ _ (certifiedRows_key pd vd sid req.certifiedBy)⟩

/-- C2: upserting a first payload and then a second payload for the same
(schoolId, year, month, day) key leaves exactly the second payload's child
rows persisted under the key — entries, accounting entries and certifiers —
with no leftover rows from the first call and no duplication, and the second
upsert updates the header row in place: the header-row count is unchanged and
the row found by key carries the second payload's header fields over the
first-upsert row. -/
theorem upsert_twice_replaces_children (auth : AuthCtx) (sid y m d : Int)
    (reqA reqB : DisbursementVoucherCreateRequest) (s : Store)
    (hw : auth.hasPerm "reports:local:write" = true)
    (hd : dateValid y m d = true) :
    ∃ rA sA rB sB,
      create_or_update_disbursement_voucher auth sid y m d reqA s = (.ok rA, sA) ∧
      create_or_update_disbursement_voucher auth sid y m d reqB sA = (.ok rB, sB) ∧
      sB.entries.filter (entryKeyMatch ⟨y, m, 1⟩ ⟨y, m, d⟩ sid) =
        reqB.entries.map (entryRowOfData ⟨y, m, 1⟩ ⟨y, m, d⟩ sid) ∧
      sB.accountingEntries.filter (accountingKeyMatch ⟨y, m, 1⟩ ⟨y, m, d⟩ sid) =
        reqB.accountingEntries.map (accountingRowOfData ⟨y, m, 1⟩ ⟨y, m, d⟩ sid) ∧
      sB.certifiedBy.filter (certifiedKeyMatch ⟨y, m, 1⟩ ⟨y, m, d⟩ sid) =
        reqB.certifiedBy.map (certifiedRowOfUser ⟨y, m, 1⟩ ⟨y, m, d⟩ sid) ∧
      sB.vouchers.length = sA.vouchers.length ∧
      ∃ vA, sA.vouchers.find? (voucherKeyMatch ⟨y, m, 1⟩ ⟨y, m, d⟩ sid) = some vA ∧
        sB.vouchers.find? (voucherKeyMatch ⟨y, m, 1⟩ ⟨y, m, d⟩ sid) =
          some (applyHeader reqB vA) := by
  have step2 : ∀ (sA : Store) (vA : VoucherRow),
      sA.vouchers.find? (voucherKeyMatch ⟨y, m, 1⟩ ⟨y, m, d⟩ sid) = some vA →
      ∃ rB sB,
        create_or_update_disbursement_voucher auth sid y m d reqB sA = (.ok rB, sB) ∧
        sB.entries.filter (entryKeyMatch ⟨y, m, 1⟩ ⟨y, m, d⟩ sid) =
          reqB.entries.map (entryRowOfData ⟨y, m, 1⟩ ⟨y, m, d⟩ sid) ∧
        sB.accountingEntries.filter (accountingKeyMatch ⟨y, m, 1⟩ ⟨y, m, d⟩ sid) =
          reqB.accountingEntries.map (accountingRowOfData ⟨y, m, 1⟩ ⟨y, m, d⟩ sid) ∧
        sB.certifiedBy.filter (certifiedKeyMatch ⟨y, m, 1⟩ ⟨y, m, d⟩ sid) =
          reqB.certifiedBy.map (certifiedRowOfUser ⟨y, m, 1⟩ ⟨y, m, d⟩ sid) ∧
        sB.vouchers.length = sA.vouchers.length ∧
        sB.vouchers.find? (voucherKeyMatch ⟨y, m, 1⟩ ⟨y, m, d⟩ sid) =
          some (applyHeader reqB vA) := by
    intro sA vA hfindA
    obtain ⟨h1, h2, h3⟩ := upsertExisting_children_exact ⟨y, m, 1⟩ ⟨y, m, d⟩ sid reqB sA
    exact ⟨_, _, create_or_update_eq_update auth sid y m d reqB sA vA hw hd hfindA,
      h1, h2, h3, length_updateFirst _ _ _,
      find?_after_upsertExisting ⟨y, m, 1⟩ ⟨y, m, d⟩ sid reqB sA vA hfindA⟩
  cases hfind : s.vouchers.find? (voucherKeyMatch ⟨y, m, 1⟩ ⟨y, m, d⟩ sid) with
  | some v =>
    have hupA := create_or_update_eq_update auth sid y m d reqA s v hw hd hfind
    have hfindA := find?_after_upsertExisting ⟨y, m, 1⟩ ⟨y, m, d⟩ sid reqA s v hfind
    obtain ⟨rB, sB, hupB, h1, h2, h3, hlen, hfindB⟩ := step2 _ _ hfindA
    exact ⟨_, _, rB, sB, hupA, hupB, h1, h2, h3, hlen, _, hfindA, hfindB⟩
  | none =>
    have hupA := create_or_update_eq_create auth sid y m d reqA s hw hd hfind
    have hfindA := find?_after_upsertNew ⟨y, m, 1⟩ ⟨y, m, d⟩ sid reqA s hfind
    obtain ⟨rB, sB, hupB, h1, h2, h3, hlen, hfindB⟩ := step2 _ _ hfindA
    exact ⟨_, _, rB, sB, hupA, hupB, h1, h2, h3, hlen, _, hfindA, hfindB⟩

/-- Witness for C2 at the concrete example payloads on the empty store. -/
theorem upsert_twice_replaces_children_witness :
    ∃ rA sA rB sB,
      create_or_update_disbursement_voucher authAll 5 2024 3 15 exampleRequest
        emptyStore = (.ok rA, sA) ∧
      create_or_update_disbursement_voucher authAll 5 2024 3 15 exampleRequestB
        sA = (.ok rB, sB) ∧
      sB.entries.filter (entryKeyMatch ⟨2024, 3, 1⟩ ⟨2024, 3, 15⟩ 5) =
        exampleRequestB.entries.map (entryRowOfData ⟨2024, 3, 1⟩ ⟨2024, 3, 15⟩ 5) ∧
      sB.accountingEntries.filter (accountingKeyMatch ⟨2024, 3, 1⟩ ⟨2024, 3, 15⟩ 5) =
        exampleRequestB.accountingEntries.map
          (accountingRowOfData ⟨2024, 3, 1⟩ ⟨2024, 3, 15⟩ 5) ∧
      sB.certifiedBy.filter (certifiedKeyMatch ⟨2024, 3, 1⟩ ⟨2024, 3, 15⟩ 5) =
        exampleRequestB.certifiedBy.map
          (certifiedRowOfUser ⟨2024, 3, 1⟩ ⟨2024, 3, 15⟩ 5) ∧
      sB.vouchers.length = sA.vouchers.length ∧
      ∃ vA, sA.vouchers.find? (voucherKeyMatch ⟨2024, 3, 1⟩ ⟨2024, 3, 15⟩ 5) =
          some vA ∧
        sB.vouchers.find? (voucherKeyMatch ⟨2024, 3, 1⟩ ⟨2024, 3, 15⟩ 5) =
          some (applyHeader exampleRequestB vA) :=
  upsert_twice_replaces_children authAll 5 2024 3 15 exampleRequest
    exampleRequestB emptyStore rfl (by decide)

/-- C6: the report status is never taken from the client payload (the request
model carries no report-status field) and is never written or transitioned by
the upsert: after a successful upsert the persisted voucher's status is the
previously stored status when the key already existed, and the store-assigned
default when the row was freshly created — in both cases a value the request
payload cannot influence. -/
theorem upsert_preserves_reportStatus (auth : AuthCtx) (sid y m d : Int)
    (req : DisbursementVoucherCreateRequest) (s : Store)
    (hw : auth.hasPerm "reports:local:write" = true)
    (hd : dateValid y m d = true) :
    ∃ r' s',
      create_or_update_disbursement_voucher auth sid y m d req s = (.ok r', s') ∧
      ∃ v', s'.vouchers.find? (voucherKeyMatch ⟨y, m, 1⟩ ⟨y, m, d⟩ sid) = some v' ∧
        v'.reportStatus =
          (match s.vouchers.find? (voucherKeyMatch ⟨y, m, 1⟩ ⟨y, m, d⟩ sid) with
           | some v => v.reportStatus
           | none => defaultReportStatus) := by
  cases hfind : s.vouchers.find? (voucherKeyMatch ⟨y, m, 1⟩ ⟨y, m, d⟩ sid) with
  | some v =>
    exact ⟨_, _, create_or_update_eq_update auth sid y m d req s v hw hd hfind,
      _, find?_after_upsertExisting ⟨y, m, 1⟩ ⟨y, m, d⟩ sid req s v hfind, rfl⟩
  | none =>
    exact ⟨_, _, create_or_update_eq_create auth sid y m d req s hw hd hfind,
      _, find?_after_upsertNew ⟨y, m, 1⟩ ⟨y, m, d⟩ sid req s hfind, rfl⟩

/-- Witness for C6 at the concrete example payload on the empty store. -/
theorem upsert_preserves_reportStatus_witness :
    ∃ r' s',
      create_or_update_disbursement_voucher authAll 5 2024 3 15 exampleRequest
        emptyStore = (.ok r', s') ∧
      ∃ v', s'.vouchers.find? (voucherKeyMatch ⟨2024, 3, 1⟩ ⟨2024, 3, 15⟩ 5) =
          some v' ∧
        v'.reportStatus =
          (match emptyStore.vouchers.find?
              (voucherKeyMatch ⟨2024, 3, 1⟩ ⟨2024, 3, 15⟩ 5) with
           | some v => v.reportStatus
           | none => defaultReportStatus) :=
  upsert_preserves_reportStatus authAll 5 2024 3 15 exampleRequest emptyStore
    rfl (by decide)

/-- C9: after a successful upsert of (schoolId, year, month, day), the header
row found by key has parent equal to the first day of the month, date equal to
the exact date and schoolId equal to the path school id; and every child row
of the resulting store — entry, accounting entry or certifier — either was
already persisted before the call or is tagged with that same
(parent, date, schoolId) key. -/
theorem upsert_tags_rows_with_key (auth : AuthCtx) (sid y m d : Int)
    (req : DisbursementVoucherCreateRequest) (s : Store)
    (hw : auth.hasPerm "reports:local:write" = true)
    (hd : dateValid y m d = true) :
    ∃ r' s',
      create_or_update_disbursement_voucher auth sid y m d req s = (.ok r', s') ∧
      (∃ v', s'.vouchers.find? (voucherKeyMatch ⟨y, m, 1⟩ ⟨y, m, d⟩ sid) = some v' ∧
        v'.parent = ⟨y, m, 1⟩ ∧ v'.date = ⟨y, m, d⟩ ∧ v'.schoolId = sid) ∧
      (∀ e ∈ s'.entries, e ∈ s.entries ∨
        (e.parent = ⟨y, m, 1⟩ ∧ e.date = ⟨y, m, d⟩ ∧ e.schoolId = sid)) ∧
      (∀ a ∈ s'.accountingEntries, a ∈ s.accountingEntries ∨
        (a.parent = ⟨y, m, 1⟩ ∧ a.date = ⟨y, m, d⟩ ∧ a.schoolId = sid)) ∧
      (∀ c ∈ s'.certifiedBy, c ∈ s.certifiedBy ∨
        (c.parent = ⟨y, m, 1⟩ ∧ c.date = ⟨y, m, d⟩ ∧ c.schoolId = sid)) := by
  cases hfind : s.vouchers.find? (voucherKeyMatch ⟨y, m, 1⟩ ⟨y, m, d⟩ sid) with
  | some v =>
    have hkey : voucherKeyMatch ⟨y, m, 1⟩ ⟨y, m, d⟩ sid v = true :=
      List.find?_some hfind
    rw [voucherKeyMatch_iff] at hkey
    refine ⟨_, _, create_or_update_eq_update auth sid y m d req s v hw hd hfind,
      ⟨_, find?_after_upsertExisting ⟨y, m, 1⟩ ⟨y, m, d⟩ sid req s v hfind,
        hkey.1, hkey.2.1, hkey.2.2⟩, ?_, ?_, ?_⟩
    · intro e he
      rcases mem_of_mem_replaceAll _ _ _ e he with h | h
      · exact .inl h
      · exact .inr ((entryKeyMatch_iff _ _ _ _).mp (entryRows_key _ _ _ _ e h))
    · intro a ha
      rcases mem_of_mem_replaceAll _ _ _ a ha with h | h
      · exact .inl h
      · exact .inr ((accountingKeyMatch_iff _ _ _ _).mp (accountingRows_key _ _ _ _ a h))
    · intro c hc
      rcases mem_of_mem_replaceAll _ _ _ c hc with h | h
      · exact .inl h
      · exact .inr ((certifiedKeyMatch_iff _ _ _ _).mp (certifiedRows_key _ _ _ _ c h))
  | none =>
    refine ⟨_, _, create_or_update_eq_create auth sid y m d req s hw hd hfind,
      ⟨_, find?_after_upsertNew ⟨y, m, 1⟩ ⟨y, m, d⟩ sid req s hfind,
        rfl, rfl, rfl⟩, ?_, ?_, ?_⟩
    · intro e he
      rcases List.mem_append.mp he with h | h
      · exact .inl h
      · exact .inr ((entryKeyMatch_iff _ _ _ _).mp (entryRows_key _ _ _ _ e h))
    · intro a ha
      rcases List.mem_append.mp ha with h | h
      · exact .inl h
      · exact .inr ((accountingKeyMatch_iff _ _ _ _).mp (accountingRows_key _ _ _ _ a h))
    · intro c hc
      rcases List.mem_append.mp hc with h | h
      · exact .inl h
      · exact .inr ((certifiedKeyMatch_iff _ _ _ _).mp (certifiedRows_key _ _ _ _ c h))

/-- Witness for C9 at the concrete example payload on the empty store. -/
theorem upsert_tags_rows_with_key_witness :
    ∃ r' s',
      create_or_update_disbursement_voucher authAll 5 2024 3 15 exampleRequest
        emptyStore = (.ok r', s') ∧
      (∃ v', s'.vouchers.find? (voucherKeyMatch ⟨2024, 3, 1⟩ ⟨2024, 3, 15⟩ 5) =
          some v' ∧
        v'.parent = ⟨2024, 3, 1⟩ ∧ v'.date = ⟨2024, 3, 15⟩ ∧ v'.schoolId = 5) ∧
      (∀ e ∈ s'.entries, e ∈ emptyStore.entries ∨
        (e.parent = ⟨2024, 3, 1⟩ ∧ e.date = ⟨2024, 3, 15⟩ ∧ e.schoolId = 5)) ∧
      (∀ a ∈ s'.accountingEntries, a ∈ emptyStore.accountingEntries ∨
        (a.parent = ⟨2024, 3, 1⟩ ∧ a.date = ⟨2024, 3, 15⟩ ∧ a.schoolId = 5)) ∧
      (∀ c ∈ s'.certifiedBy, c ∈ emptyStore.certifiedBy ∨
        (c.parent = ⟨2024, 3, 1⟩ ∧ c.date = ⟨2024, 3, 15⟩ ∧ c.schoolId = 5)) :=
  upsert_tags_rows_with_key authAll 5 2024 3 15 exampleRequest emptyStore
    rfl (by decide)

/-- A persisted voucher whose linked liquidation category is "cat-a", used for
the list-endpoint counterexample and witness. -/
def vC4 : VoucherRow :=
  { parent := ⟨2024, 3, 1⟩, date := ⟨2024, 3, 15⟩, schoolId := 5,
    modeOfPayment := "check", payee := "Jane Doe", tinOrEmployeeNo := none,
    responsibilityCenter := none, orsbursNo := none, address := none,
    linkedLiquidationCategory := some "cat-a", reportStatus := .draft,
    certifiedCashAvailable := false, certifiedSupportingDocsComplete := false,
    certifiedSubjectToDebitAccount := false, approvedBy := none,
    checkNo := none, bankNameAndAccountNo := none, adaNo := none, jevNo := none }

/-- A store holding exactly the voucher `vC4` and no child rows. -/
def sC4 : Store := ⟨[vC4], [], [], []⟩

/-- Counterexample to C4 as stated: supplying the `linked_category` filter ""
(an exact filter value a client can supply) does not narrow the result set to
vouchers whose category exactly matches "" — the voucher whose linked
liquidation category is "cat-a" is still returned, because the source guard
`if linked_category:` treats the empty string as no filter. -/
theorem list_supplied_filter_not_narrowing :
    (get_disbursement_vouchers_for_month authAll 5 2024 3 (some "") sC4).1 =
      .ok [buildResponse sC4 vC4] ∧
    (buildResponse sC4 vC4).linkedLiquidationCategory = some "cat-a" ∧
    (some "cat-a" : Option String) ≠ some "" := by
  refine ⟨?_, rfl, by decide⟩
  rfl

/-- Evaluation of the list endpoint on the permission- and date-valid path. -/
theorem list_eq_ok (auth : AuthCtx) (sid y m : Int) (lc : Option String)
    (s : Store) (hr : auth.hasPerm "reports:local:read" = true)
    (hm : dateValid y m 1 = true) :
    get_disbursement_vouchers_for_month auth sid y m lc s =
      (.ok ((if linkedCategoryTruthy lc then
          (s.vouchers.filter fun v =>
            decide (v.parent = ⟨y, m, 1⟩) && decide (v.schoolId = sid)).filter
            (fun v => decide (v.linkedLiquidationCategory = lc))
        else s.vouchers.filter fun v =>
          decide (v.parent = ⟨y, m, 1⟩) && decide (v.schoolId = sid)).map
        (buildResponse s)), s) := by
  simp only [get_disbursement_vouchers_for_month, hr,
    mkDate?_eq_some y m 1 hm, if_true]

/-- C4 (amended): for every (schoolId, year, month) and store state the list
operation returns responses for exactly those vouchers whose parent equals the
first day of the month and whose schoolId equals the given schoolId; when a
NON-EMPTY `linked_category` filter is supplied, the result set is further
narrowed to vouchers whose linked liquidation category is an exact string
match of the filter.  (The claim as frozen fails for the supplied filter "",
which the code treats as no filter — see the counterexample.) -/
theorem list_month_filter_semantics (auth : AuthCtx) (sid y m : Int) (s : Store)
    (hr : auth.hasPerm "reports:local:read" = true)
    (hm : dateValid y m 1 = true) :
    (∃ rs, get_disbursement_vouchers_for_month auth sid y m none s = (.ok rs, s) ∧
      ∀ r, r ∈ rs ↔ ∃ v ∈ s.vouchers, v.parent = ⟨y, m, 1⟩ ∧ v.schoolId = sid ∧
        r = buildResponse s v) ∧
    (∀ c : String, c ≠ "" →
      ∃ rs, get_disbursement_vouchers_for_month auth sid y m (some c) s =
          (.ok rs, s) ∧
        ∀ r, r ∈ rs ↔ ∃ v ∈ s.vouchers, v.parent = ⟨y, m, 1⟩ ∧ v.schoolId = sid ∧
          v.linkedLiquidationCategory = some c ∧ r = buildResponse s v) := by
  constructor
  · refine ⟨(s.vouchers.filter fun v =>
      decide (v.parent = (⟨y, m, 1⟩ : Date)) && decide (v.schoolId = sid)).map
        (buildResponse s), ?_, fun r => ?_⟩
    · rw [list_eq_ok auth sid y m none s hr hm]
      simp [linkedCategoryTruthy]
    · simp only [List.mem_map, List.mem_filter, Bool.and_eq_true,
        decide_eq_true_eq]
      constructor
      · rintro ⟨v, ⟨hv, h1, h2⟩, rfl⟩
        exact ⟨v, hv, h1, h2, rfl⟩
      · rintro ⟨v, hv, h1, h2, rfl⟩
        exact ⟨v, ⟨hv, h1, h2⟩, rfl⟩
  · intro c hc
    refine ⟨((s.vouchers.filter fun v =>
      decide (v.parent = (⟨y, m, 1⟩ : Date)) && decide (v.schoolId = sid)).filter
        (fun v => decide (v.linkedLiquidationCategory = some c))).map
        (buildResponse s), ?_, fun r => ?_⟩
    · rw [list_eq_ok auth sid y m (some c) s hr hm]
      simp [linkedCategoryTruthy, hc]
    · simp only [List.mem_map, List.mem_filter, Bool.and_eq_true,
        decide_eq_true_eq]
      constructor
      · rintro ⟨v, ⟨⟨hv, h1, h2⟩, h3⟩, rfl⟩
        exact ⟨v, hv, h1, h2, h3, rfl⟩
      · rintro ⟨v, hv, h1, h2, h3, rfl⟩
        exact ⟨v, ⟨⟨hv, h1, h2⟩, h3⟩, rfl⟩

/-- Witness for the amended C4 at the one-voucher store with the non-empty
filter "cat-a". -/
theorem list_month_filter_semantics_witness :
    ∃ rs, get_disbursement_vouchers_for_month authAll 5 2024 3 (some "cat-a")
        sC4 = (.ok rs, sC4) ∧
      ∀ r, r ∈ rs ↔ ∃ v ∈ sC4.vouchers, v.parent = ⟨2024, 3, 1⟩ ∧
        v.schoolId = 5 ∧ v.linkedLiquidationCategory = some "cat-a" ∧
        r = buildResponse sC4 v :=
  (list_month_filter_semantics authAll 5 2024 3 sC4 rfl (by decide)).2
    "cat-a" (by decide)

/-- Witness for C1 at the spec §8 example input on the empty store. -/
theorem upsert_then_get_returns_submitted_header_witness :
    authAll.hasPerm "reports:local:write" = true ∧
    authAll.hasPerm "reports:local:read" = true ∧
    dateValid 2024 3 15 = true ∧
    ∃ resp s' r,
      create_or_update_disbursement_voucher authAll 5 2024 3 15 exampleRequest
        emptyStore = (.ok resp, s') ∧
      get_disbursement_voucher authAll 5 2024 3 15 s' = (.ok r, s') ∧
      headerMatches r exampleRequest ∧
      ∃ v, s'.vouchers.find? (voucherKeyMatch ⟨2024, 3, 1⟩ ⟨2024, 3, 15⟩ 5) =
          some v ∧ r.reportStatus = v.reportStatus :=
  ⟨rfl, rfl, by decide,
   upsert_then_get_returns_submitted_header authAll 5 2024 3 15 exampleRequest
     emptyStore rfl rfl (by decide)⟩
